import Mathlib

/-!
# Verification of the StudentMangement attendance backend

A shallow embedding of the Express/PostgreSQL attendance-management
backend (`server/controllers/teacherController.js`,
`server/controllers/authController.js` (student controller part), and the
SQL schema).  Tables are modelled as Lean lists of rows; each request
handler becomes a pure Lean function from the database state and the
request parameters to a response (and, for writes, a new database state).
Transactions are modelled by working on a copy of the table and
discarding it on failure (ROLLBACK).
-/

namespace StudentMangement

/-- `attendance_status` enum from the schema:
`CREATE TYPE attendance_status AS ENUM ('PRESENT', 'ABSENT', 'HOLIDAY')`. -/
inductive Status where
  | PRESENT
  | ABSENT
  | HOLIDAY
deriving DecidableEq, Repr

/-- A calendar date (the SQL `DATE` type); `EXTRACT(MONTH/YEAR FROM date)`
become field projections. -/
structure SDate where
  year : Nat
  month : Nat
  day : Nat
deriving DecidableEq, Repr

/-- One row of the `attendance` table (the `id SERIAL` column is omitted:
it is never compared or returned; `COUNT(a.id)` counts joined non-null
rows, which is the row count here). -/
structure AttRow where
  student_id : Nat
  date : SDate
  status : Status
deriving DecidableEq, Repr

/-- One row of the `students` table. -/
structure Student where
  id : Nat
  user_id : Option String
  name : String
  class_name : String
  roll_no : Int
  student_id_code : String
deriving DecidableEq, Repr

/-- One row of the `users` table (only the columns the handlers read). -/
structure User where
  id : String
  email : String
deriving DecidableEq, Repr

/-- The schema's `CONSTRAINT unique_attendance UNIQUE (student_id, date)`:
no two rows of the attendance table share a (student_id, date) key. -/
def uniqueKeys (table : List AttRow) : Prop :=
  table.Pairwise fun a b => ¬(a.student_id = b.student_id ∧ a.date = b.date)

instance (table : List AttRow) : Decidable (uniqueKeys table) := by
  unfold uniqueKeys; infer_instance

/-- Does an attendance row match the (student_id, date) key? -/
def keyMatch (sid : Nat) (d : SDate) (r : AttRow) : Bool :=
  r.student_id == sid && r.date == d

/-- `INSERT ... ON CONFLICT (student_id, date) DO UPDATE SET status =
EXCLUDED.status`: overwrite the status of an existing (student_id, date)
row, or append a fresh row when none exists. -/
def upsertRow (table : List AttRow) (sid : Nat) (d : SDate) (st : Status) :
    List AttRow :=
  if table.any (keyMatch sid d) then
    table.map fun r => if keyMatch sid d r then { r with status := st } else r
  else
    table ++ [⟨sid, d, st⟩]

/-- One record of the `markAttendanceBulk` request body. -/
structure BulkRec where
  student_id : Nat
  status : Status
deriving DecidableEq, Repr

/-- A single upsert statement inside the transaction.  The foreign key
`attendance.student_id REFERENCES students(id)` makes the INSERT fail
(raising an error that aborts the transaction) when the student id is
unknown; `none` models that error. -/
def upsertChecked (studentIds : List Nat) (table : List AttRow) (d : SDate)
    (r : BulkRec) : Option (List AttRow) :=
  if r.student_id ∈ studentIds then
    some (upsertRow table r.student_id d r.status)
  else
    none

/-- The body of `markAttendanceBulk`'s transaction: the `for` loop running
one upsert per record between BEGIN and COMMIT; the first error aborts. -/
def bulkTransaction (studentIds : List Nat) (table : List AttRow) (d : SDate)
    (records : List BulkRec) : Option (List AttRow) :=
  records.foldlM (fun t r => upsertChecked studentIds t d r) table

/-- `markAttendanceBulk` (POST /teacher/attendance/bulk): COMMIT on
success, ROLLBACK (table unchanged, `false` = HTTP 500) on any error. -/
def markAttendanceBulk (studentIds : List Nat) (table : List AttRow)
    (d : SDate) (records : List BulkRec) : List AttRow × Bool :=
  match bulkTransaction studentIds table d records with
  | some t => (t, true)
  | none => (table, false)

/-- All upserts of a batch applied in order, unconditionally. -/
def applyAllUpserts (table : List AttRow) (d : SDate)
    (records : List BulkRec) : List AttRow :=
  records.foldl (fun t r => upsertRow t r.student_id d r.status) table

/-! ## Percentage formatting

JavaScript `((present / total) * 100).toFixed(1)`.  On the magnitudes the
application handles the float computation is exact enough that the result
is the exact rational `present / total * 100` rounded to the nearest tenth
(ties up), which is what `pctTenths` computes over `Nat`. -/

/-- `present / total * 100` in tenths of a percent, rounded to nearest
(ties rounded up): `⌊(2 * present * 1000 + total) / (2 * total)⌋`. -/
def pctTenths (present total : Nat) : Nat :=
  (2 * present * 1000 + total) / (2 * total)

/-- `.toFixed(1)` rendering of the percentage, e.g. `"75.0"`. -/
def fmtPct (present total : Nat) : String :=
  let n := pctTenths present total
  toString (n / 10) ++ "." ++ toString (n % 10)

example : fmtPct 3 4 = "75.0" := by decide
example : fmtPct 1 3 = "33.3" := by decide
example : fmtPct 70 100 = "70.0" := by decide

/-! ## `ORDER BY s.class_name, s.roll_no`

The sort key of every report query is the pair (class_name, roll_no),
compared lexicographically. -/

/-- The `ORDER BY` key of a student row. -/
def studentKey (s : Student) : Lex (String × Int) :=
  toLex (s.class_name, s.roll_no)

/-- Boolean comparator for `ORDER BY s.class_name, s.roll_no`. -/
def studentLE (a b : Student) : Bool :=
  decide (studentKey a ≤ studentKey b)

/-- Students sorted by class name, then roll number. -/
def sortStudents (ss : List Student) : List Student :=
  ss.mergeSort studentLE

/-- The dynamic class filter: the JS guard `if (class_name && class_name
!== 'All')` adds `WHERE s.class_name = $n` only when the parameter is
present, non-empty and not the literal `'All'`. -/
def classMatches (f : Option String) (s : Student) : Bool :=
  match f with
  | none => true
  | some c => if c == "" || c == "All" then true else s.class_name == c

/-! ## getAttendanceSheet (GET /teacher/attendance-sheet) -/

/-- One row of the attendance-sheet response. -/
structure SheetRow where
  student_id : Nat
  name : String
  student_id_code : String
  class_name : String
  roll_no : Int
  status : Option Status
deriving DecidableEq, Repr

/-- The rows the `LEFT JOIN attendance a ON s.id = a.student_id AND
a.date = $1` produces for one student: one row per matching attendance
row, or a single row with NULL status when none matches. -/
def sheetRowsFor (table : List AttRow) (d : SDate) (s : Student) :
    List SheetRow :=
  let ms := table.filter (keyMatch s.id d)
  if ms.isEmpty then
    [⟨s.id, s.name, s.student_id_code, s.class_name, s.roll_no, none⟩]
  else
    ms.map fun r =>
      ⟨s.id, s.name, s.student_id_code, s.class_name, s.roll_no, some r.status⟩

/-- `getAttendanceSheet`: all students (filtered by class when requested)
left-joined against the given date's attendance rows.  The SQL `ORDER BY
s.class_name, s.roll_no ASC` uses only student columns, so sorting the
students before the join yields the ordered result set. -/
def getAttendanceSheet (students : List Student) (table : List AttRow)
    (d : SDate) (f : Option String) : List SheetRow :=
  (sortStudents (students.filter (classMatches f))).flatMap
    (sheetRowsFor table d)

/-! ## getMonthlyAttendanceReport (GET /teacher/monthly-report) -/

/-- One row of the monthly-report response. -/
structure ReportRow where
  student_id : Nat
  name : String
  roll_no : Int
  class_name : String
  total_days : Nat
  present_days : Nat
  percentage : String
deriving DecidableEq, Repr

/-- `EXTRACT(MONTH FROM a.date) = $1 AND EXTRACT(YEAR FROM a.date) = $2`. -/
def inMonth (m y : Nat) (d : SDate) : Bool :=
  d.month == m && d.year == y

/-- The attendance rows of one student falling in the given month/year
(the join condition of the monthly report's LEFT JOIN). -/
def monthRowsFor (table : List AttRow) (m y : Nat) (sid : Nat) :
    List AttRow :=
  table.filter fun r => r.student_id == sid && inMonth m y r.date

/-- One student's group in the monthly report: `COUNT(a.id)`,
`SUM(CASE WHEN a.status = 'PRESENT' THEN 1 ELSE 0 END)`, and the JS
post-processing `total > 0 ? ((present / total) * 100).toFixed(1) : '0.0'`. -/
def reportRowFor (table : List AttRow) (m y : Nat) (s : Student) :
    ReportRow :=
  let rows := monthRowsFor table m y s.id
  let total := rows.length
  let present := (rows.filter fun r => r.status == Status.PRESENT).length
  { student_id := s.id, name := s.name, roll_no := s.roll_no,
    class_name := s.class_name, total_days := total, present_days := present,
    percentage := if 0 < total then fmtPct present total else "0.0" }

/-- `getMonthlyAttendanceReport`: LEFT JOIN restricted to the month, so
every student (matching the class filter) forms one group even with zero
joined rows; ordered by class then roll number. -/
def getMonthlyAttendanceReport (students : List Student)
    (table : List AttRow) (m y : Nat) (f : Option String) : List ReportRow :=
  (sortStudents (students.filter (classMatches f))).map (reportRowFor table m y)

/-! ## getLowAttendanceList (GET /teacher/low-attendance) -/

/-- A student's entire attendance history (`LEFT JOIN attendance a ON
s.id = a.student_id`, no date restriction). -/
def historyRows (table : List AttRow) (sid : Nat) : List AttRow :=
  table.filter fun r => r.student_id == sid

/-- `COUNT(a.id)` over the full history: every attendance row of the
student, whatever its status (HOLIDAY included). -/
def totalDaysAll (table : List AttRow) (sid : Nat) : Nat :=
  (historyRows table sid).length

/-- `SUM(CASE WHEN a.status = 'PRESENT' THEN 1 ELSE 0 END)` over the full
history. -/
def presentDaysAll (table : List AttRow) (sid : Nat) : Nat :=
  ((historyRows table sid).filter fun r => r.status == Status.PRESENT).length

/-- One row of the low-attendance response. -/
structure LowRow where
  student_id : Nat
  name : String
  class_name : String
  roll_no : Int
  email : String
  total_days : Nat
  present_days : Nat
  percentage : String
deriving DecidableEq, Repr

/-- `getLowAttendanceList`: inner JOIN with users (students without a
matching user row drop out), grouped per student, kept by `HAVING
COUNT(a.id) > 0 AND (SUM(...)::float / COUNT(a.id) * 100) < 75`.  The
float comparison is exact at these magnitudes, so it is modelled as the
rational inequality `100 * present < 75 * total`. -/
def getLowAttendanceList (students : List Student) (users : List User)
    (table : List AttRow) : List LowRow :=
  let joined := students.filterMap fun s =>
    match s.user_id with
    | none => none
    | some uid => (users.find? fun u => u.id == uid).map fun u => (s, u.email)
  let flagged := joined.filter fun p =>
    decide (0 < totalDaysAll table p.1.id ∧
      100 * presentDaysAll table p.1.id < 75 * totalDaysAll table p.1.id)
  (flagged.mergeSort fun a b => studentLE a.1 b.1).map fun p =>
    { student_id := p.1.id, name := p.1.name, class_name := p.1.class_name,
      roll_no := p.1.roll_no, email := p.2,
      total_days := totalDaysAll table p.1.id,
      present_days := presentDaysAll table p.1.id,
      percentage := fmtPct (presentDaysAll table p.1.id)
        (totalDaysAll table p.1.id) }

/-! ## getDashboardStats (GET /teacher/dashboard) -/

/-- The attendance rows of one date (`WHERE date = $1`). -/
def dateRows (table : List AttRow) (d : SDate) : List AttRow :=
  table.filter fun r => r.date == d

/-- Count of rows with a given status (one bucket of `GROUP BY status`). -/
def countStatus (rows : List AttRow) (st : Status) : Nat :=
  (rows.filter fun r => r.status == st).length

/-- The teacher-dashboard response. -/
structure DashStats where
  total_students : Nat
  present_today : Nat
  absent_today : Nat
deriving DecidableEq, Repr

/-- `getDashboardStats`: total student count plus today's PRESENT and
ABSENT bucket counts; buckets absent from the GROUP BY result (HOLIDAY
included) leave the initialised zeros in place. -/
def getDashboardStats (students : List Student) (table : List AttRow)
    (today : SDate) : DashStats :=
  { total_students := students.length,
    present_today := countStatus (dateRows table today) Status.PRESENT,
    absent_today := countStatus (dateRows table today) Status.ABSENT }

/-! ## getStudentDashboard (GET /student/dashboard) -/

/-- A JSON value that is either a string or a number — the `percentage`
field of the student dashboard has both shapes in the source
(`totalDays > 0 ? (...).toFixed(1) : 0`). -/
inductive StrOrNum where
  | str (s : String)
  | num (n : Nat)
deriving DecidableEq, Repr

/-- The `attendance_summary` object of the student dashboard. -/
structure AttendanceSummary where
  percentage : StrOrNum
  total_present : Nat
  total_days : Nat
deriving DecidableEq, Repr

/-- The student-dashboard response (profile flattened). -/
structure DashboardResp where
  name : String
  id_code : String
  class_name : String
  roll_no : Int
  summary : AttendanceSummary
deriving DecidableEq, Repr

/-- `getStudentDashboard`: find the student by user id (404 → `none`),
count PRESENT and ABSENT over the whole history (HOLIDAY falls in
neither bucket), `totalDays = present + absent`, and percentage
`totalDays > 0 ? ((present / totalDays) * 100).toFixed(1) : 0` — note the
untyped `0` (a number, not a string) in the zero branch. -/
def getStudentDashboard (students : List Student) (table : List AttRow)
    (userId : String) : Option DashboardResp :=
  (students.find? fun s => s.user_id == some userId).map fun st =>
    let present := countStatus (historyRows table st.id) Status.PRESENT
    let absent := countStatus (historyRows table st.id) Status.ABSENT
    let totalDays := present + absent
    { name := st.name, id_code := st.student_id_code,
      class_name := st.class_name, roll_no := st.roll_no,
      summary :=
        { percentage :=
            if 0 < totalDays then StrOrNum.str (fmtPct present totalDays)
            else StrOrNum.num 0,
          total_present := present, total_days := totalDays } }

/-! ## createStudent (POST /teacher/students/create) -/

/-- The whole database state touched by `createStudent`. -/
structure DB where
  users : List User
  students : List Student
  attendance : List AttRow
deriving DecidableEq, Repr

/-- The request body; each field is absent (`none`) or a JSON value.
`roll_no` arrives as a JSON number. -/
structure CreateReq where
  name : Option String
  email : Option String
  password : Option String
  class_name : Option String
  roll_no : Option Int
deriving DecidableEq, Repr

/-- The handler's outcome: HTTP 400 with an error message, or HTTP 201
with the generated student code. -/
inductive CreateResult where
  | badRequest (msg : String)
  | created (code : String)
deriving DecidableEq, Repr

/-- JavaScript truthiness of an optional string field: absent and `""`
are falsy. -/
def truthyStr : Option String → Bool
  | none => false
  | some s => !(s == "")

/-- JavaScript truthiness of an optional number field: absent and `0`
are falsy. -/
def truthyInt : Option Int → Bool
  | none => false
  | some n => !(n == 0)

/-- `String(n).padStart(3, '0')`. -/
def padStart3 (n : Nat) : String :=
  let s := toString n
  if s.length < 3 then String.mk (List.replicate (3 - s.length) '0') ++ s
  else s

/-- The next `SERIAL` value of the students table. -/
def nextStudentRowId (db : DB) : Nat :=
  (db.students.map Student.id).foldr max 0 + 1

/-- `createStudent`: the five falsiness validations in source order (each
returning 400 before any query runs), then inside one transaction the
duplicate-email pre-check, the duplicate-(class, roll) pre-check, and the
two INSERTs; every failing branch leaves the database unchanged.
`freshUserId` stands for the generated UUID; the password hash is not
modelled (never read back). -/
def createStudent (db : DB) (freshUserId : String) (req : CreateReq) :
    CreateResult × DB :=
  if !truthyStr req.name then (.badRequest "Name is required", db)
  else if !truthyStr req.email then (.badRequest "Email is required", db)
  else if !truthyStr req.password then (.badRequest "Password is required", db)
  else if !truthyStr req.class_name then (.badRequest "Class is required", db)
  else if !truthyInt req.roll_no then (.badRequest "Roll number is required", db)
  else
    let email := req.email.getD ""
    let nm := req.name.getD ""
    let cn := req.class_name.getD ""
    let rn := req.roll_no.getD 0
    if db.users.any fun u => u.email == email then
      (.badRequest "User already exists", db)
    else if db.students.any fun s => s.class_name == cn && s.roll_no == rn then
      (.badRequest ("Roll number " ++ toString rn ++
        " already exists in class " ++ cn), db)
    else
      let code := "STD" ++ padStart3 (db.students.length + 1)
      let newUser : User := { id := freshUserId, email := email }
      let newStudent : Student :=
        { id := nextStudentRowId db, user_id := some freshUserId, name := nm,
          class_name := cn, roll_no := rn, student_id_code := code }
      (.created code,
        { db with users := db.users ++ [newUser],
                  students := db.students ++ [newStudent] })

/-! ## Lemmas about the attendance upsert -/

theorem keyMatch_iff (sid : Nat) (d : SDate) (r : AttRow) :
    keyMatch sid d r = true ↔ r.student_id = sid ∧ r.date = d := by
  simp [keyMatch]

theorem filter_key_length_le_one (sid : Nat) (d : SDate) {table : List AttRow}
    (hu : uniqueKeys table) : (table.filter (keyMatch sid d)).length ≤ 1 := by
  induction table with
  | nil => simp
  | cons a t ih =>
    rcases List.pairwise_cons.mp hu with ⟨ha, hp⟩
    by_cases pa : keyMatch sid d a = true
    · have hnil : t.filter (keyMatch sid d) = [] := by
        apply List.filter_eq_nil_iff.mpr
        intro b hb hbkey
        rcases (keyMatch_iff sid d a).mp pa with ⟨ha1, ha2⟩
        rcases (keyMatch_iff sid d b).mp hbkey with ⟨hb1, hb2⟩
        exact ha b hb ⟨ha1.trans hb1.symm, ha2.trans hb2.symm⟩
      simp [List.filter_cons, pa, hnil]
    · simpa [List.filter_cons, pa] using ih hp

theorem filter_key_upsertRow {table : List AttRow} {sid : Nat} {d : SDate}
    (st : Status) (hu : uniqueKeys table) :
    (upsertRow table sid d st).filter (keyMatch sid d) = [⟨sid, d, st⟩] := by
  unfold upsertRow
  by_cases h : table.any (keyMatch sid d) = true
  · rw [if_pos h]
    have hcomm : ∀ r : AttRow,
        keyMatch sid d (if keyMatch sid d r then { r with status := st } else r) =
          keyMatch sid d r := by
      intro r
      by_cases hr : keyMatch sid d r = true
      · simp only [hr, if_pos]
        rcases (keyMatch_iff sid d r).mp hr with ⟨h1, h2⟩
        simp [keyMatch, h1, h2]
      · simp [hr]
    rw [List.filter_map]
    have hfc : table.filter
        ((keyMatch sid d) ∘ fun r =>
          if keyMatch sid d r then { r with status := st } else r) =
        table.filter (keyMatch sid d) := by
      apply List.filter_congr
      intro r _
      exact hcomm r
    rw [hfc]
    rcases List.any_eq_true.mp h with ⟨r0, hr0, hr0key⟩
    have hmem : r0 ∈ table.filter (keyMatch sid d) :=
      List.mem_filter.mpr ⟨hr0, hr0key⟩
    have hle := filter_key_length_le_one sid d hu
    match hf : table.filter (keyMatch sid d) with
    | [] => rw [hf] at hmem; cases hmem
    | [r1] =>
      rw [hf] at hmem
      have : r0 = r1 := by simpa using hmem
      have hkey : keyMatch sid d r1 = true := this ▸ hr0key
      rcases (keyMatch_iff sid d r1).mp hkey with ⟨h1, h2⟩
      simp [List.map_cons, hkey, h1, h2]
    | r1 :: r2 :: rest => rw [hf] at hle; simp at hle
  · rw [if_neg h]
    have hnil : table.filter (keyMatch sid d) = [] := by
      apply List.filter_eq_nil_iff.mpr
      intro b hb hbkey
      exact h (List.any_eq_true.mpr ⟨b, hb, hbkey⟩)
    simp [List.filter_append, hnil, keyMatch]

theorem uniqueKeys_upsertRow {table : List AttRow} (sid : Nat) (d : SDate)
    (st : Status) (hu : uniqueKeys table) :
    uniqueKeys (upsertRow table sid d st) := by
  unfold upsertRow
  by_cases h : table.any (keyMatch sid d) = true
  · rw [if_pos h]
    unfold uniqueKeys at hu ⊢
    rw [List.pairwise_map]
    apply hu.imp_of_mem
    intro a b _ _ hab
    by_cases ha : keyMatch sid d a = true <;>
      by_cases hb : keyMatch sid d b = true <;>
        simpa [ha, hb] using hab
  · rw [if_neg h]
    unfold uniqueKeys at hu ⊢
    rw [List.pairwise_append]
    refine ⟨hu, List.pairwise_singleton _ _, ?_⟩
    intro a ha b hb
    have : b = (⟨sid, d, st⟩ : AttRow) := by simpa using hb
    subst this
    intro ⟨h1, h2⟩
    exact h (List.any_eq_true.mpr ⟨a, ha, (keyMatch_iff sid d a).mpr ⟨h1, h2⟩⟩)

theorem bulkTransaction_all_valid (studentIds : List Nat)
    (table : List AttRow) (d : SDate) (records : List BulkRec)
    (h : ∀ r ∈ records, r.student_id ∈ studentIds) :
    bulkTransaction studentIds table d records =
      some (applyAllUpserts table d records) := by
  induction records generalizing table with
  | nil => rfl
  | cons a rs ih =>
    have ha : a.student_id ∈ studentIds := h a (List.mem_cons_self a rs)
    have hrs : ∀ r ∈ rs, r.student_id ∈ studentIds := fun r hr =>
      h r (List.mem_cons_of_mem a hr)
    simp only [bulkTransaction, applyAllUpserts, List.foldlM_cons,
      List.foldl_cons, upsertChecked, if_pos ha, Option.bind_eq_bind,
      Option.some_bind]
    exact ih (upsertRow table a.student_id d a.status) hrs

theorem bulkTransaction_invalid (studentIds : List Nat)
    (table : List AttRow) (d : SDate) (records : List BulkRec)
    (h : ∃ r ∈ records, r.student_id ∉ studentIds) :
    bulkTransaction studentIds table d records = none := by
  induction records generalizing table with
  | nil => rcases h with ⟨r, hr, _⟩; cases hr
  | cons a rs ih =>
    by_cases ha : a.student_id ∈ studentIds
    · have hrs : ∃ r ∈ rs, r.student_id ∉ studentIds := by
        rcases h with ⟨r, hr, hinv⟩
        rcases List.mem_cons.mp hr with rfl | hmem
        · exact absurd ha hinv
        · exact ⟨r, hmem, hinv⟩
      simp only [bulkTransaction, List.foldlM_cons, upsertChecked, if_pos ha,
        Option.bind_eq_bind, Option.some_bind]
      exact ih (upsertRow table a.student_id d a.status) hrs
    · simp [bulkTransaction, List.foldlM_cons, upsertChecked, if_neg ha]

theorem uniqueKeys_bulkTransaction (studentIds : List Nat)
    {table t : List AttRow} {d : SDate} {records : List BulkRec}
    (hu : uniqueKeys table)
    (h : bulkTransaction studentIds table d records = some t) :
    uniqueKeys t := by
  induction records generalizing table with
  | nil =>
    have : table = t := by simpa [bulkTransaction] using h
    exact this ▸ hu
  | cons a rs ih =>
    by_cases ha : a.student_id ∈ studentIds
    · simp only [bulkTransaction, List.foldlM_cons, upsertChecked, if_pos ha,
        Option.bind_eq_bind, Option.some_bind] at h
      exact ih (uniqueKeys_upsertRow a.student_id d a.status hu) h
    · simp [bulkTransaction, List.foldlM_cons, upsertChecked, if_neg ha] at h

theorem uniqueKeys_markAttendanceBulk (studentIds : List Nat)
    (table : List AttRow) (d : SDate) (records : List BulkRec)
    (hu : uniqueKeys table) :
    uniqueKeys (markAttendanceBulk studentIds table d records).1 := by
  unfold markAttendanceBulk
  cases h : bulkTransaction studentIds table d records with
  | none => exact hu
  | some t => exact uniqueKeys_bulkTransaction studentIds hu h

/-! ## Lemmas about the ORDER BY comparator -/

/-- The `ORDER BY class_name, roll_no` relation, spelled out. -/
def rowOrder (c1 : String) (r1 : Int) (c2 : String) (r2 : Int) : Prop :=
  c1 < c2 ∨ (c1 = c2 ∧ r1 ≤ r2)

theorem studentKey_le_iff (a b : Student) :
    studentKey a ≤ studentKey b ↔
      rowOrder a.class_name a.roll_no b.class_name b.roll_no := by
  simp [studentKey, rowOrder, Prod.Lex.le_iff]

theorem studentLE_trans : ∀ a b c : Student,
    studentLE a b → studentLE b c → studentLE a c := by
  intro a b c hab hbc
  have h1 : studentKey a ≤ studentKey b := of_decide_eq_true hab
  have h2 : studentKey b ≤ studentKey c := of_decide_eq_true hbc
  exact decide_eq_true (le_trans h1 h2)

theorem studentLE_total : ∀ a b : Student, studentLE a b || studentLE b a := by
  intro a b
  rcases le_total (studentKey a) (studentKey b) with h | h
  · simp [studentLE, h]
  · simp [studentLE, h]

theorem sortStudents_sorted (ss : List Student) :
    (sortStudents ss).Pairwise fun a b =>
      rowOrder a.class_name a.roll_no b.class_name b.roll_no := by
  have h := @List.sorted_mergeSort Student studentLE
    studentLE_trans studentLE_total ss
  exact h.imp fun hab => (studentKey_le_iff _ _).mp (of_decide_eq_true hab)

theorem mem_sortStudents {s : Student} {ss : List Student} :
    s ∈ sortStudents ss ↔ s ∈ ss := List.mem_mergeSort

theorem length_sortStudents (ss : List Student) :
    (sortStudents ss).length = ss.length := List.length_mergeSort ..

/-! ## Lemmas about the left join of the attendance sheet -/

theorem find?_eq_head_filter (l : List AttRow) (p : AttRow → Bool) :
    l.find? p = (l.filter p).head? := by
  induction l with
  | nil => rfl
  | cons a t ih =>
    by_cases h : p a = true
    · rw [List.find?_cons_of_pos _ h, List.filter_cons_of_pos h]
      rfl
    · rw [List.find?_cons_of_neg _ h, List.filter_cons_of_neg h, ih]

/-- Under the uniqueness constraint the left join yields exactly one
sheet row per student, with the status of the (at most one) matching
attendance row. -/
theorem sheetRowsFor_eq {table : List AttRow} (hu : uniqueKeys table)
    (d : SDate) (s : Student) :
    sheetRowsFor table d s =
      [⟨s.id, s.name, s.student_id_code, s.class_name, s.roll_no,
        (table.find? (keyMatch s.id d)).map AttRow.status⟩] := by
  unfold sheetRowsFor
  have hle := filter_key_length_le_one s.id d hu
  rw [find?_eq_head_filter]
  match hf : table.filter (keyMatch s.id d) with
  | [] => simp [hf]
  | [r0] => simp [hf]
  | r0 :: r1 :: rest => rw [hf] at hle; simp at hle

theorem getAttendanceSheet_eq (students : List Student)
    {table : List AttRow} (hu : uniqueKeys table) (d : SDate)
    (f : Option String) :
    getAttendanceSheet students table d f =
      (sortStudents (students.filter (classMatches f))).map fun s =>
        ⟨s.id, s.name, s.student_id_code, s.class_name, s.roll_no,
          (table.find? (keyMatch s.id d)).map AttRow.status⟩ := by
  unfold getAttendanceSheet
  have hfun : sheetRowsFor table d = fun s =>
      [(⟨s.id, s.name, s.student_id_code, s.class_name, s.roll_no,
        (table.find? (keyMatch s.id d)).map AttRow.status⟩ : SheetRow)] :=
    funext fun s => sheetRowsFor_eq hu d s
  rw [hfun]
  induction sortStudents (students.filter (classMatches f)) with
  | nil => rfl
  | cons a t ih => simp_all

/-! ## Claim theorems -/

/-- C1: `markAttendanceBulk` is atomic across the whole batch: when every
record of the call references an existing student, all upserts are
applied and committed; when any record violates the foreign key (unknown
student_id), the whole call rolls back — the attendance table is
unchanged and the handler reports failure. -/
theorem markAttendanceBulk_atomic (studentIds : List Nat)
    (table : List AttRow) (d : SDate) (records : List BulkRec) :
    ((∀ r ∈ records, r.student_id ∈ studentIds) →
      markAttendanceBulk studentIds table d records =
        (applyAllUpserts table d records, true)) ∧
    ((∃ r ∈ records, r.student_id ∉ studentIds) →
      markAttendanceBulk studentIds table d records = (table, false)) := by
  constructor
  · intro h
    unfold markAttendanceBulk
    rw [bulkTransaction_all_valid studentIds table d records h]
  · intro h
    unfold markAttendanceBulk
    rw [bulkTransaction_invalid studentIds table d records h]

/-- Witness for C1: a two-record batch fully applied; the same batch with
one unknown student id persisted nothing (the prior valid upsert of
student 1 included). -/
theorem markAttendanceBulk_atomic_witness :
    markAttendanceBulk [1, 2] [] ⟨2026, 2, 13⟩
        [⟨1, Status.PRESENT⟩, ⟨2, Status.ABSENT⟩] =
      ([⟨1, ⟨2026, 2, 13⟩, Status.PRESENT⟩,
        ⟨2, ⟨2026, 2, 13⟩, Status.ABSENT⟩], true) ∧
    markAttendanceBulk [1, 2] [⟨2, ⟨2026, 2, 13⟩, Status.ABSENT⟩]
        ⟨2026, 2, 13⟩ [⟨1, Status.PRESENT⟩, ⟨99, Status.ABSENT⟩] =
      ([⟨2, ⟨2026, 2, 13⟩, Status.ABSENT⟩], false) := by
  constructor
  · have h := (markAttendanceBulk_atomic [1, 2] [] ⟨2026, 2, 13⟩
      [⟨1, Status.PRESENT⟩, ⟨2, Status.ABSENT⟩]).1 (by decide)
    rw [h]
    decide
  · exact (markAttendanceBulk_atomic [1, 2] [⟨2, ⟨2026, 2, 13⟩, Status.ABSENT⟩]
      ⟨2026, 2, 13⟩ [⟨1, Status.PRESENT⟩, ⟨99, Status.ABSENT⟩]).2
      ⟨⟨99, Status.ABSENT⟩, by decide, by decide⟩

/-- C2: the bulk upsert is keyed on (student_id, date) and idempotent:
submitting a status twice for the same (student, date) leaves exactly one
attendance record for that key, carrying that status; and every
`markAttendanceBulk` call preserves the at-most-one-record-per-key
invariant. -/
theorem markAttendanceBulk_idempotent (studentIds : List Nat)
    (table : List AttRow) (d : SDate) (sid : Nat) (st : Status)
    (hu : uniqueKeys table) (hs : sid ∈ studentIds) :
    ((markAttendanceBulk studentIds
        (markAttendanceBulk studentIds table d [⟨sid, st⟩]).1
        d [⟨sid, st⟩]).1).filter (keyMatch sid d) = [⟨sid, d, st⟩] ∧
    ∀ records, uniqueKeys (markAttendanceBulk studentIds table d records).1 := by
  have hone : ∀ t : List AttRow,
      (markAttendanceBulk studentIds t d [⟨sid, st⟩]).1 =
        upsertRow t sid d st := by
    intro t
    unfold markAttendanceBulk
    rw [bulkTransaction_all_valid studentIds t d [⟨sid, st⟩]
      (fun r hr => by rcases List.mem_singleton.mp hr with rfl; exact hs)]
    rfl
  constructor
  · rw [hone, hone]
    exact filter_key_upsertRow st (uniqueKeys_upsertRow sid d st hu)
  · intro records
    exact uniqueKeys_markAttendanceBulk studentIds table d records hu

/-- Witness for C2: marking student 1 PRESENT twice on the same date
leaves exactly one record for that (student, date), with status PRESENT. -/
theorem markAttendanceBulk_idempotent_witness :
    ((markAttendanceBulk [1]
        (markAttendanceBulk [1] [] ⟨2026, 2, 13⟩ [⟨1, Status.PRESENT⟩]).1
        ⟨2026, 2, 13⟩ [⟨1, Status.PRESENT⟩]).1).filter
      (keyMatch 1 ⟨2026, 2, 13⟩) = [⟨1, ⟨2026, 2, 13⟩, Status.PRESENT⟩] :=
  (markAttendanceBulk_idempotent [1] [] ⟨2026, 2, 13⟩ 1 Status.PRESENT
    (by decide) (by decide)).1

/-- C8: the teacher dashboard returns zero PRESENT and zero ABSENT counts
for a date with no attendance records (no error), and HOLIDAY records of
the date are counted in neither bucket. -/
theorem getDashboardStats_spec (students : List Student)
    (table : List AttRow) (d : SDate) :
    (dateRows table d = [] →
      (getDashboardStats students table d).present_today = 0 ∧
      (getDashboardStats students table d).absent_today = 0) ∧
    (∀ sid, getDashboardStats students (table ++ [⟨sid, d, Status.HOLIDAY⟩]) d =
      getDashboardStats students table d) := by
  constructor
  · intro h
    simp [getDashboardStats, countStatus, h]
  · intro sid
    simp [getDashboardStats, countStatus, dateRows, List.filter_append]

/-- Witness for C8: an empty attendance table yields present = 0 and
absent = 0 for any date. -/
theorem getDashboardStats_spec_witness :
    (getDashboardStats [] [] ⟨2026, 2, 13⟩).present_today = 0 ∧
    (getDashboardStats [] [] ⟨2026, 2, 13⟩).absent_today = 0 :=
  (getDashboardStats_spec [] [] ⟨2026, 2, 13⟩).1 rfl

/-- C10: `createStudent` validates with JavaScript falsiness, so a request
with roll_no = 0 (all other fields present) is rejected with 400 "Roll
number is required" before any database access and writes nothing; any
missing or falsy required field likewise yields a 400 and no write. -/
theorem createStudent_falsy_validation (db : DB) (freshUserId : String)
    (req : CreateReq) :
    (truthyStr req.name = true → truthyStr req.email = true →
      truthyStr req.password = true → truthyStr req.class_name = true →
      req.roll_no = some 0 →
      createStudent db freshUserId req =
        (CreateResult.badRequest "Roll number is required", db)) ∧
    ((truthyStr req.name = false ∨ truthyStr req.email = false ∨
      truthyStr req.password = false ∨ truthyStr req.class_name = false ∨
      truthyInt req.roll_no = false) →
      ∃ msg, createStudent db freshUserId req =
        (CreateResult.badRequest msg, db)) := by
  constructor
  · intro h1 h2 h3 h4 h5
    have h6 : truthyInt req.roll_no = false := by rw [h5]; rfl
    simp [createStudent, h1, h2, h3, h4, h6]
  · intro h
    cases hn : truthyStr req.name with
    | false => exact ⟨"Name is required", by simp [createStudent, hn]⟩
    | true =>
      cases he : truthyStr req.email with
      | false => exact ⟨"Email is required", by simp [createStudent, hn, he]⟩
      | true =>
        cases hp : truthyStr req.password with
        | false =>
          exact ⟨"Password is required", by simp [createStudent, hn, he, hp]⟩
        | true =>
          cases hc : truthyStr req.class_name with
          | false =>
            exact ⟨"Class is required", by simp [createStudent, hn, he, hp, hc]⟩
          | true =>
            cases hr : truthyInt req.roll_no with
            | false =>
              exact ⟨"Roll number is required",
                by simp [createStudent, hn, he, hp, hc, hr]⟩
            | true => rcases h with h | h | h | h | h <;> simp_all

/-- Witness for C10: a well-formed request with roll_no = 0 is rejected
with "Roll number is required" and the database is untouched. -/
theorem createStudent_falsy_validation_witness :
    createStudent ⟨[], [], []⟩ "uuid1"
        ⟨some "Ann", some "ann@school.com", some "pw", some "10-A", some 0⟩ =
      (CreateResult.badRequest "Roll number is required", ⟨[], [], []⟩) :=
  (createStudent_falsy_validation ⟨[], [], []⟩ "uuid1"
    ⟨some "Ann", some "ann@school.com", some "pw", some "10-A", some 0⟩).1
    (by decide) (by decide) (by decide) (by decide) rfl

/-- C3 counterexample: the claim says every percentage-reporting
operation returns the string "0.0" when total = 0, but the student
dashboard (`getStudentDashboard`) returns the JSON number 0 in that case
(`totalDays > 0 ? (...).toFixed(1) : 0`): a student with an empty history
gets `percentage: 0`, not `percentage: "0.0"`. -/
theorem studentDashboard_zero_total_percentage_is_number :
    (getStudentDashboard [⟨1, some "u1", "Ann", "10-A", 1, "STD001"⟩] []
        "u1").map (fun r => r.summary.percentage) = some (StrOrNum.num 0) ∧
    StrOrNum.num 0 ≠ StrOrNum.str "0.0" := by
  constructor
  · rfl
  · intro h
    cases h

/-- C3 (amended): every reported percentage with total > 0 is
`(present / total) * 100` rounded to one decimal place as a string
(`fmtPct`; e.g. 3/4 → "75.0", 1/3 → "33.3"); at total = 0 the monthly
report returns the string "0.0" and the student dashboard returns the
JSON number 0 (not a string); low-attendance rows always have
total > 0. -/
theorem percentage_semantics (students : List Student) (users : List User)
    (table : List AttRow) (m y : Nat) (f : Option String) (userId : String) :
    fmtPct 3 4 = "75.0" ∧ fmtPct 1 3 = "33.3" ∧
    (∀ row ∈ getMonthlyAttendanceReport students table m y f,
      row.percentage =
        if 0 < row.total_days then fmtPct row.present_days row.total_days
        else "0.0") ∧
    (∀ row ∈ getLowAttendanceList students users table,
      0 < row.total_days ∧
      row.percentage = fmtPct row.present_days row.total_days) ∧
    (∀ resp, getStudentDashboard students table userId = some resp →
      resp.summary.percentage =
        if 0 < resp.summary.total_days then
          StrOrNum.str
            (fmtPct resp.summary.total_present resp.summary.total_days)
        else StrOrNum.num 0) := by
  refine ⟨by decide, by decide, ?_, ?_, ?_⟩
  · intro row hrow
    rcases List.mem_map.mp hrow with ⟨s, _, rfl⟩
    simp only [reportRowFor]
  · intro row hrow
    simp only [getLowAttendanceList] at hrow
    rcases List.mem_map.mp hrow with ⟨p, hp, rfl⟩
    have hpf := List.mem_filter.mp (List.mem_mergeSort.mp hp)
    rcases of_decide_eq_true hpf.2 with ⟨h1, _⟩
    exact ⟨h1, rfl⟩
  · intro resp h
    simp only [getStudentDashboard] at h
    rcases Option.map_eq_some'.mp h with ⟨st, _, rfl⟩
    rfl

/-- Witness for C3 (amended): a student with one PRESENT record gets the
string percentage "100.0" on the dashboard. -/
theorem percentage_semantics_witness :
    (⟨"Ann", "STD001", "10-A", 1,
        ⟨StrOrNum.str "100.0", 1, 1⟩⟩ : DashboardResp).summary.percentage =
      if 0 < (⟨"Ann", "STD001", "10-A", 1,
          ⟨StrOrNum.str "100.0", 1, 1⟩⟩ : DashboardResp).summary.total_days then
        StrOrNum.str (fmtPct 1 1)
      else StrOrNum.num 0 :=
  (percentage_semantics [⟨1, some "u1", "Ann", "10-A", 1, "STD001"⟩] []
    [⟨1, ⟨2026, 2, 1⟩, Status.PRESENT⟩] 2 2026 none "u1").2.2.2.2
    ⟨"Ann", "STD001", "10-A", 1, ⟨StrOrNum.str "100.0", 1, 1⟩⟩ (by decide)

/-- C5: the monthly report counts exactly the attendance rows of the
requested month and year; every student matching the class filter appears
(zero matching records giving totalDays = 0 and percentage "0.0"), every
row comes from such a student, and rows are ordered by class then roll
number. -/
theorem monthlyReport_spec (students : List Student) (table : List AttRow)
    (m y : Nat) (f : Option String) :
    (∀ s ∈ students, classMatches f s = true →
      ∃ row ∈ getMonthlyAttendanceReport students table m y f,
        row.student_id = s.id ∧
        row.total_days = (monthRowsFor table m y s.id).length ∧
        row.present_days = ((monthRowsFor table m y s.id).filter fun r =>
          r.status == Status.PRESENT).length ∧
        (monthRowsFor table m y s.id = [] →
          row.total_days = 0 ∧ row.percentage = "0.0")) ∧
    (∀ row ∈ getMonthlyAttendanceReport students table m y f,
      ∃ s ∈ students, classMatches f s = true ∧
        row = reportRowFor table m y s) ∧
    (getMonthlyAttendanceReport students table m y f).Pairwise
      (fun a b => rowOrder a.class_name a.roll_no b.class_name b.roll_no) := by
  refine ⟨?_, ?_, ?_⟩
  · intro s hs hm
    refine ⟨reportRowFor table m y s,
      List.mem_map_of_mem _
        (mem_sortStudents.mpr (List.mem_filter.mpr ⟨hs, hm⟩)),
      rfl, rfl, rfl, ?_⟩
    intro h0
    simp [reportRowFor, h0]
  · intro row hrow
    rcases List.mem_map.mp hrow with ⟨s, hsmem, rfl⟩
    have hsf := List.mem_filter.mp (mem_sortStudents.mp hsmem)
    exact ⟨s, hsf.1, hsf.2, rfl⟩
  · exact List.pairwise_map.mpr ((sortStudents_sorted _).imp fun h => h)

/-- Witness for C5: a student whose only attendance is in March 2026 gets
totalDays = 0 and percentage "0.0" in the February 2026 report. -/
theorem monthlyReport_spec_witness :
    ∃ row ∈ getMonthlyAttendanceReport
        [⟨1, some "u1", "Ann", "10-A", 1, "STD001"⟩]
        [⟨1, ⟨2026, 3, 5⟩, Status.PRESENT⟩] 2 2026 none,
      row.student_id = 1 ∧ row.total_days = 0 ∧ row.percentage = "0.0" := by
  have h := (monthlyReport_spec [⟨1, some "u1", "Ann", "10-A", 1, "STD001"⟩]
    [⟨1, ⟨2026, 3, 5⟩, Status.PRESENT⟩] 2 2026 none).1
    ⟨1, some "u1", "Ann", "10-A", 1, "STD001"⟩ (by decide) (by decide)
  rcases h with ⟨row, hmem, hid, _, _, hzero⟩
  rcases hzero (by decide) with ⟨ht, hp⟩
  exact ⟨row, hmem, hid, ht, hp⟩

/-- C6: the attendance sheet has, under the (student_id, date) uniqueness
constraint, exactly one row per student in scope — all students, or
exactly those of the filtered class — even when no attendance row exists
for the date (then status = null); rows are ordered by class then roll
number ascending. -/
theorem attendanceSheet_spec (students : List Student) {table : List AttRow}
    (hu : uniqueKeys table) (d : SDate) (f : Option String) :
    (∀ s ∈ students, classMatches f s = true →
      ∃ row ∈ getAttendanceSheet students table d f,
        row.student_id = s.id ∧ row.name = s.name ∧
        row.class_name = s.class_name ∧ row.roll_no = s.roll_no ∧
        row.status = (table.find? (keyMatch s.id d)).map AttRow.status ∧
        ((∀ r ∈ table, keyMatch s.id d r = false) → row.status = none)) ∧
    (∀ row ∈ getAttendanceSheet students table d f,
      ∃ s ∈ students, classMatches f s = true ∧ row.student_id = s.id) ∧
    (getAttendanceSheet students table d f).length =
      (students.filter (classMatches f)).length ∧
    (getAttendanceSheet students table d f).Pairwise
      (fun a b => rowOrder a.class_name a.roll_no b.class_name b.roll_no) := by
  rw [getAttendanceSheet_eq students hu d f]
  refine ⟨?_, ?_, ?_, ?_⟩
  · intro s hs hm
    refine ⟨_, List.mem_map_of_mem _
      (mem_sortStudents.mpr (List.mem_filter.mpr ⟨hs, hm⟩)),
      rfl, rfl, rfl, rfl, rfl, ?_⟩
    intro hnone
    have hfind : table.find? (keyMatch s.id d) = none :=
      List.find?_eq_none.mpr fun r hr => by rw [hnone r hr]; simp
    simp [hfind]
  · intro row hrow
    rcases List.mem_map.mp hrow with ⟨s, hsmem, rfl⟩
    have hsf := List.mem_filter.mp (mem_sortStudents.mp hsmem)
    exact ⟨s, hsf.1, hsf.2, rfl⟩
  · rw [List.length_map, length_sortStudents]
  · exact List.pairwise_map.mpr ((sortStudents_sorted _).imp fun h => h)

/-- Witness for C6: with a uniqueness-respecting table holding no row for
2026-02-13, the student of class 10-A appears with status = null. -/
theorem attendanceSheet_spec_witness :
    ∃ row ∈ getAttendanceSheet [⟨1, some "u1", "Ann", "10-A", 1, "STD001"⟩]
        [⟨1, ⟨2026, 2, 12⟩, Status.PRESENT⟩] ⟨2026, 2, 13⟩ (some "10-A"),
      row.student_id = 1 ∧ row.status = none := by
  have h := (@attendanceSheet_spec [⟨1, some "u1", "Ann", "10-A", 1, "STD001"⟩]
    [⟨1, ⟨2026, 2, 12⟩, Status.PRESENT⟩] (by decide)
    ⟨2026, 2, 13⟩ (some "10-A")).1
    ⟨1, some "u1", "Ann", "10-A", 1, "STD001"⟩ (by decide) (by decide)
  rcases h with ⟨row, hmem, hid, _, _, _, _, hnull⟩
  exact ⟨row, hmem, hid, hnull (by decide)⟩

/-- C4: under referential integrity (every student has a users row, as
`createStudent` guarantees), the low-attendance list contains a student's
id exactly when their whole-history ratio is strictly below 75% and they
have at least one record; each row is annotated with total days, present
days and the one-decimal percentage; and rows always have total > 0, so a
student with zero attendance records never appears. -/
theorem lowAttendanceList_spec (students : List Student) (users : List User)
    (table : List AttRow) (s : Student) (hs : s ∈ students)
    (integrity : ∀ s' ∈ students, ∃ u ∈ users, s'.user_id = some u.id) :
    ((∃ row ∈ getLowAttendanceList students users table,
        row.student_id = s.id) ↔
      (0 < totalDaysAll table s.id ∧
        100 * presentDaysAll table s.id < 75 * totalDaysAll table s.id)) ∧
    (∀ row ∈ getLowAttendanceList students users table,
      0 < totalDaysAll table row.student_id ∧
      row.total_days = totalDaysAll table row.student_id ∧
      row.present_days = presentDaysAll table row.student_id ∧
      row.percentage = fmtPct (presentDaysAll table row.student_id)
        (totalDaysAll table row.student_id)) := by
  constructor
  · constructor
    · rintro ⟨row, hrow, hid⟩
      simp only [getLowAttendanceList] at hrow
      rcases List.mem_map.mp hrow with ⟨p, hp, rfl⟩
      have hpf := List.mem_filter.mp (List.mem_mergeSort.mp hp)
      rcases of_decide_eq_true hpf.2 with ⟨h1, h2⟩
      have hpid : p.1.id = s.id := hid
      rw [hpid] at h1 h2
      exact ⟨h1, h2⟩
    · rintro ⟨h1, h2⟩
      rcases integrity s hs with ⟨u, hu, huid⟩
      have hsome : (users.find? fun x => x.id == u.id).isSome :=
        List.find?_isSome.mpr ⟨u, hu, by simp⟩
      rcases Option.isSome_iff_exists.mp hsome with ⟨u2, hfind⟩
      simp only [getLowAttendanceList]
      refine ⟨_, List.mem_map.mpr ⟨(s, u2.email), List.mem_mergeSort.mpr
        (List.mem_filter.mpr ⟨List.mem_filterMap.mpr ⟨s, hs, ?_⟩,
          decide_eq_true ⟨h1, h2⟩⟩), rfl⟩, rfl⟩
      rw [huid]
      show Option.map (fun v => (s, v.email))
        (users.find? fun x => x.id == u.id) = some (s, u2.email)
      rw [hfind]
      rfl
  · intro row hrow
    simp only [getLowAttendanceList] at hrow
    rcases List.mem_map.mp hrow with ⟨p, hp, rfl⟩
    have hpf := List.mem_filter.mp (List.mem_mergeSort.mp hp)
    rcases of_decide_eq_true hpf.2 with ⟨h1, _⟩
    exact ⟨h1, rfl, rfl, rfl⟩

/-- Witness for C4: a student with 1 PRESENT out of 4 records (25%)
appears in the low-attendance list. -/
theorem lowAttendanceList_spec_witness :
    ∃ row ∈ getLowAttendanceList [⟨1, some "u1", "Ann", "10-A", 1, "STD001"⟩]
        [⟨"u1", "ann@school.com"⟩]
        [⟨1, ⟨2026, 2, 1⟩, Status.PRESENT⟩, ⟨1, ⟨2026, 2, 2⟩, Status.ABSENT⟩,
          ⟨1, ⟨2026, 2, 3⟩, Status.ABSENT⟩, ⟨1, ⟨2026, 2, 4⟩, Status.ABSENT⟩],
      row.student_id = 1 :=
  (lowAttendanceList_spec [⟨1, some "u1", "Ann", "10-A", 1, "STD001"⟩]
    [⟨"u1", "ann@school.com"⟩]
    [⟨1, ⟨2026, 2, 1⟩, Status.PRESENT⟩, ⟨1, ⟨2026, 2, 2⟩, Status.ABSENT⟩,
      ⟨1, ⟨2026, 2, 3⟩, Status.ABSENT⟩, ⟨1, ⟨2026, 2, 4⟩, Status.ABSENT⟩]
    ⟨1, some "u1", "Ann", "10-A", 1, "STD001"⟩ (by decide)
    (by decide)).1.mpr (by decide)

/-- C7: with a well-formed request, `createStudent` rejects a duplicate
email, and a duplicate (class_name, roll_no) pair when the email is
fresh, each with an HTTP 400 duplicate error — and in both cases the
database (users, students, attendance) is exactly what it was: nothing
is inserted. -/
theorem createStudent_duplicate_conflict (db : DB) (freshUserId : String)
    (req : CreateReq) (hn : truthyStr req.name = true)
    (he : truthyStr req.email = true) (hp : truthyStr req.password = true)
    (hc : truthyStr req.class_name = true)
    (hr : truthyInt req.roll_no = true) :
    ((∃ u ∈ db.users, u.email = req.email.getD "") →
      createStudent db freshUserId req =
        (CreateResult.badRequest "User already exists", db)) ∧
    ((∀ u ∈ db.users, u.email ≠ req.email.getD "") →
      (∃ s ∈ db.students, s.class_name = req.class_name.getD "" ∧
        s.roll_no = req.roll_no.getD 0) →
      createStudent db freshUserId req =
        (CreateResult.badRequest ("Roll number " ++
          toString (req.roll_no.getD 0) ++ " already exists in class " ++
          req.class_name.getD ""), db)) := by
  constructor
  · intro hdup
    have hany : (db.users.any fun u => u.email == req.email.getD "") = true := by
      rcases hdup with ⟨u, hu, hequ⟩
      exact List.any_eq_true.mpr ⟨u, hu, by simp [hequ]⟩
    simp [createStudent, hn, he, hp, hc, hr, hany]
  · intro hnodup hdup
    have hany : (db.users.any fun u => u.email == req.email.getD "") = false :=
      List.any_eq_false.mpr fun u hu => by simp [hnodup u hu]
    have hany2 : (db.students.any fun s =>
        s.class_name == req.class_name.getD "" &&
          s.roll_no == req.roll_no.getD 0) = true := by
      rcases hdup with ⟨s, hsmem, hcn, hrn⟩
      exact List.any_eq_true.mpr ⟨s, hsmem, by simp [hcn, hrn]⟩
    simp [createStudent, hn, he, hp, hc, hr, hany, hany2]

/-- Witness for C7: creating roll 5 in class 10-A when that pair already
exists fails with the duplicate-roll error and leaves the database
unchanged. -/
theorem createStudent_duplicate_conflict_witness :
    createStudent
        ⟨[⟨"u0", "ann@school.com"⟩],
          [⟨1, some "u0", "Ann", "10-A", 5, "STD001"⟩], []⟩ "uuid2"
        ⟨some "Bob", some "bob@school.com", some "pw", some "10-A", some 5⟩ =
      (CreateResult.badRequest "Roll number 5 already exists in class 10-A",
        ⟨[⟨"u0", "ann@school.com"⟩],
          [⟨1, some "u0", "Ann", "10-A", 5, "STD001"⟩], []⟩) := by
  have h := (createStudent_duplicate_conflict
    ⟨[⟨"u0", "ann@school.com"⟩],
      [⟨1, some "u0", "Ann", "10-A", 5, "STD001"⟩], []⟩ "uuid2"
    ⟨some "Bob", some "bob@school.com", some "pw", some "10-A", some 5⟩
    (by decide) (by decide) (by decide) (by decide) (by decide)).2
    (by decide) (by decide)
  exact h.trans (by decide)

/-- C9: the student dashboard counts PRESENT and ABSENT only, with
total_days = present + absent, so appending a HOLIDAY record changes
nothing in its summary — while `totalDaysAll`, the `COUNT(a.id)`
denominator of `getLowAttendanceList`, grows by one for the same
appended HOLIDAY record. -/
theorem studentDashboard_holiday_excluded (students : List Student)
    (table : List AttRow) (userId : String) (st : Student)
    (hfind : students.find? (fun s => s.user_id == some userId) = some st) :
    (∃ resp, getStudentDashboard students table userId = some resp ∧
      resp.summary.total_present =
        countStatus (historyRows table st.id) Status.PRESENT ∧
      resp.summary.total_days =
        countStatus (historyRows table st.id) Status.PRESENT +
        countStatus (historyRows table st.id) Status.ABSENT) ∧
    (∀ d, getStudentDashboard students
        (table ++ [⟨st.id, d, Status.HOLIDAY⟩]) userId =
      getStudentDashboard students table userId) ∧
    (∀ d, totalDaysAll (table ++ [⟨st.id, d, Status.HOLIDAY⟩]) st.id =
      totalDaysAll table st.id + 1) := by
  refine ⟨?_, ?_, ?_⟩
  · simp only [getStudentDashboard]
    rw [hfind]
    exact ⟨_, rfl, rfl, rfl⟩
  · intro d
    simp only [getStudentDashboard]
    rw [hfind]
    have hhist : historyRows (table ++ [⟨st.id, d, Status.HOLIDAY⟩]) st.id =
        historyRows table st.id ++ [⟨st.id, d, Status.HOLIDAY⟩] := by
      simp [historyRows, List.filter_append]
    simp [hhist, countStatus, List.filter_append]
  · intro d
    simp [totalDaysAll, historyRows, List.filter_append]

/-- Witness for C9: for a student whose history is one PRESENT plus one
HOLIDAY record, the dashboard total is 1 (HOLIDAY ignored). -/
theorem studentDashboard_holiday_excluded_witness :
    ∃ resp, getStudentDashboard [⟨1, some "u1", "Ann", "10-A", 1, "STD001"⟩]
        [⟨1, ⟨2026, 2, 1⟩, Status.PRESENT⟩, ⟨1, ⟨2026, 2, 2⟩, Status.HOLIDAY⟩]
        "u1" = some resp ∧
      resp.summary.total_present = 1 ∧ resp.summary.total_days = 1 := by
  have h := (studentDashboard_holiday_excluded
    [⟨1, some "u1", "Ann", "10-A", 1, "STD001"⟩]
    [⟨1, ⟨2026, 2, 1⟩, Status.PRESENT⟩, ⟨1, ⟨2026, 2, 2⟩, Status.HOLIDAY⟩]
    "u1" ⟨1, some "u1", "Ann", "10-A", 1, "STD001"⟩ (by decide)).1
  rcases h with ⟨resp, hresp, hpres, htot⟩
  exact ⟨resp, hresp, by rw [hpres]; decide, by rw [htot]; decide⟩

end StudentMangement
